import Mathlib

/-!
Shallow embedding of the Bona-Blog article listing, filtering and
permission-gated mutation pipeline, together with the register view.

The repository snapshot contains `blog/views/account/register_view.py`
and `blog/tests/test_views.py`; the blog views and models themselves are
absent, so the article-pipeline operations are modelled from the spec
(each such definition says so in its doc comment), with literal response
bodies and routes taken from the assertions of `test_views.py`.
-/

namespace BonaBlog

/-- Publication status of an article: the enum `DRAFT | PUBLISHED` of spec §3. -/
inductive Status where
  | DRAFT : Status
  | PUBLISHED : Status
deriving DecidableEq, Repr

/-- An article record: identifier, title, slug, body, owning author
(user identifier), category (category identifier), image reference,
status, and the two timestamps (`date_created` immutable,
`date_published` set on publication), as in spec §3. Timestamps are
naturals (ticks). -/
structure Article where
  id : Nat
  title : String
  slug : String
  body : String
  author : Nat
  category : Nat
  image : String
  status : Status
  datePublished : Nat
  dateCreated : Nat
deriving DecidableEq, Repr

/-- A category record: identifier, name, slug, image reference (spec §3). -/
structure Category where
  id : Nat
  name : String
  slug : String
  image : String
deriving DecidableEq, Repr

/-- An author/user record: identifier, username, names, email,
profile image (spec §3). -/
structure User where
  id : Nat
  username : String
  firstName : String
  lastName : String
  email : String
  profileImage : String
deriving DecidableEq, Repr

/-- The entity store: articles, categories and users (spec §2, §3). -/
structure Store where
  articles : List Article
  categories : List Category
  users : List User
deriving DecidableEq, Repr

/-- Modelled from the spec: the Ordering Policy comparison (§4.3) — the
blog view code is absent from the snapshot.  `articleLe a b` holds when
`a` may come before `b`: descending `date_published`, ties broken by
descending `date_created`, then by ascending identifier. -/
def articleLe (a b : Article) : Prop :=
  b.datePublished < a.datePublished ∨
    (b.datePublished = a.datePublished ∧ b.dateCreated < a.dateCreated) ∨
      (b.datePublished = a.datePublished ∧ b.dateCreated = a.dateCreated ∧
        a.id ≤ b.id)

instance : DecidableRel articleLe := fun a b => by
  unfold articleLe; infer_instance

instance : IsTotal Article articleLe :=
  ⟨by intro a b; unfold articleLe; omega⟩

instance : IsTrans Article articleLe :=
  ⟨by intro a b c; unfold articleLe; omega⟩

/-- Modelled from the spec: the Ordering Policy `order(articles)` (§4.3),
insertion sort by `articleLe` — the blog view code is absent from the
snapshot. -/
def order (l : List Article) : List Article :=
  List.insertionSort articleLe l

/-- Modelled from the spec: the Visibility Filter for anonymous/general
listing scopes (§4.1) — only articles with status `PUBLISHED` — the blog
view code is absent from the snapshot. -/
def visibleArticles (s : Store) : List Article :=
  s.articles.filter (fun a => a.status = Status.PUBLISHED)

/-- Modelled from the spec: the home listing (§4.5) — the ordered
visible articles. -/
def homeArticles (s : Store) : List Article :=
  order (visibleArticles s)

/-- Resolve a category slug, `none` meaning NotFound (404). -/
def findCategory (s : Store) (slug : String) : Option Category :=
  s.categories.find? (fun c => c.slug = slug)

/-- Modelled from the spec: the category-articles listing (§4.5) — the
ordered visible articles of the resolved category, `none` meaning
NotFound (404) when the slug resolves to no category. -/
def categoryArticles (s : Store) (slug : String) : Option (List Article) :=
  (findCategory s slug).map (fun c =>
    order ((visibleArticles s).filter (fun a => a.category = c.id)))

/-- Resolve a username, `none` meaning NotFound (404). -/
def findAuthor (s : Store) (username : String) : Option User :=
  s.users.find? (fun u => u.username = username)

/-- Modelled from the spec: the author-articles listing (§4.5) — the
ordered visible articles of the resolved author, `none` meaning NotFound
(404) when the username resolves to no user. -/
def authorArticles (s : Store) (username : String) : Option (List Article) :=
  (findAuthor s username).map (fun u =>
    order ((visibleArticles s).filter (fun a => a.author = u.id)))

/-- True when the first character list occurs at the very start of the
second. -/
def subAt : List Char → List Char → Bool
  | [], _ => true
  | _ :: _, [] => false
  | c :: cs, d :: ds => c = d && subAt cs ds

/-- True when the first character list occurs contiguously anywhere in
the second. -/
def hasSub (needle : List Char) : List Char → Bool
  | [] => subAt needle []
  | d :: ds => subAt needle (d :: ds) || hasSub needle ds

/-- The characters of a string, lower-cased. -/
def charsLower (s : String) : List Char :=
  s.data.map Char.toLower

/-- Modelled from the spec: case-insensitive substring match of the
query against the article title (§4.2, Django `title__icontains`). -/
def titleMatches (a : Article) (q : String) : Bool :=
  hasSub (charsLower q) (charsLower a.title)

/-- Modelled from the spec: the Query/Search Engine
`search(visible_set, query_string)` (§4.2) — identity when the query is
absent (`none`) or empty, otherwise the subset of the visible set whose
title contains the query case-insensitively. -/
def searchFilter (visible : List Article) (q : Option String) :
    List Article :=
  match q with
  | none => visible
  | some qs =>
    if qs = "" then visible
    else visible.filter (fun a => titleMatches a qs)

/-- Modelled from the spec: the search listing (§4.5) — ordered filtered
articles. -/
def searchArticles (s : Store) (q : Option String) : List Article :=
  order (searchFilter (visibleArticles s) q)

/-- Modelled from the spec: direct single-article access by slug (§4.1,
§4.5) — the resolved article regardless of status, `none` meaning
NotFound (404). -/
def articleDetail (s : Store) (slug : String) : Option Article :=
  s.articles.find? (fun a => a.slug = slug)

/-- Sample published article used by concrete witnesses. -/
def sampleArticle : Article :=
  ⟨1, "Hello World", "hello-world", "body text", 7, 3, "img",
    Status.PUBLISHED, 10, 9⟩

/-- Sample draft article used by concrete witnesses. -/
def sampleDraft : Article :=
  ⟨2, "Secret Note", "secret-note", "draft body", 7, 3, "img",
    Status.DRAFT, 0, 11⟩

/-- Sample category used by concrete witnesses. -/
def sampleCategory : Category := ⟨3, "News", "news", "img"⟩

/-- Sample user used by concrete witnesses. -/
def sampleUser : User := ⟨7, "alice", "Alice", "Smith", "a@x.io", "img"⟩

/-- Sample store used by concrete witnesses: one published and one
draft article, one category, one user. -/
def sampleStore : Store :=
  ⟨[sampleArticle, sampleDraft], [sampleCategory], [sampleUser]⟩

theorem mem_order {a : Article} {l : List Article} :
    a ∈ order l ↔ a ∈ l :=
  (List.perm_insertionSort articleLe l).mem_iff

theorem mem_visible_published {a : Article} {s : Store}
    (h : a ∈ visibleArticles s) : a.status = Status.PUBLISHED := by
  have hp := List.of_mem_filter h
  simpa using hp

theorem mem_searchFilter {a : Article} {l : List Article}
    {q : Option String} (h : a ∈ searchFilter l q) : a ∈ l := by
  cases q with
  | none => exact h
  | some qs =>
    by_cases hq : qs = ""
    · simpa [searchFilter, hq] using h
    · simp only [searchFilter, if_neg hq] at h
      exact List.mem_of_mem_filter h

/-- C1: every article returned by an anonymous listing operation — home,
category articles, author articles, search — has status `PUBLISHED`;
drafts never appear in any of these listing results. -/
theorem listings_only_published (s : Store) (cslug uname : String)
    (q : Option String) (a : Article) :
    (a ∈ homeArticles s → a.status = Status.PUBLISHED) ∧
    (∀ l, categoryArticles s cslug = some l → a ∈ l →
      a.status = Status.PUBLISHED) ∧
    (∀ l, authorArticles s uname = some l → a ∈ l →
      a.status = Status.PUBLISHED) ∧
    (a ∈ searchArticles s q → a.status = Status.PUBLISHED) := by
  refine ⟨?_, ?_, ?_, ?_⟩
  · intro h
    exact mem_visible_published (mem_order.mp h)
  · intro l hl ha
    rcases Option.map_eq_some'.mp hl with ⟨c, _, rfl⟩
    exact mem_visible_published (List.mem_of_mem_filter (mem_order.mp ha))
  · intro l hl ha
    rcases Option.map_eq_some'.mp hl with ⟨u, _, rfl⟩
    exact mem_visible_published (List.mem_of_mem_filter (mem_order.mp ha))
  · intro h
    exact mem_visible_published (mem_searchFilter (mem_order.mp h))

/-- Witness for C1: in the sample store the published article appears on
the home listing and is indeed `PUBLISHED`. -/
theorem listings_only_published_witness :
    sampleArticle ∈ homeArticles sampleStore ∧
      sampleArticle.status = Status.PUBLISHED :=
  ⟨by decide,
    (listings_only_published sampleStore "news" "alice" none
      sampleArticle).1 (by decide)⟩

theorem filter_singleton_of_unique {α : Type} (p : α → Bool) :
    ∀ (l : List α) (u : α), u ∈ l → p u = true →
      l.countP p = 1 → l.filter p = [u] := by
  intro l
  induction l with
  | nil => intro u hu; cases hu
  | cons x xs ih =>
    intro u hu hpu hcount
    rcases List.mem_cons.mp hu with rfl | hmem
    · rw [List.countP_cons_of_pos p xs hpu] at hcount
      have hzero : xs.countP p = 0 := by omega
      rw [List.filter_cons_of_pos hpu]
      have hnil : xs.filter p = [] :=
        List.filter_eq_nil_iff.mpr (List.countP_eq_zero.mp hzero)
      rw [hnil]
    · by_cases hx : p x = true
      · exfalso
        rw [List.countP_cons_of_pos p xs hx] at hcount
        have hzero : xs.countP p = 0 := by omega
        exact List.countP_eq_zero.mp hzero u hmem hpu
      · rw [List.filter_cons_of_neg hx, List.countP_cons_of_neg p xs hx]
          at *
        exact ih u hmem hpu hcount

/-- C4: search is the identity on the visible set when the query is
absent or empty; otherwise it returns exactly the subset of the visible
set whose title contains the query as a case-insensitive substring, and
when exactly one article of the visible set matches, the result is
exactly that one article. -/
theorem search_semantics (l : List Article) (qs : String) (a u : Article)
    (hq : qs ≠ "") :
    searchFilter l none = l ∧
    searchFilter l (some "") = l ∧
    (a ∈ searchFilter l (some qs) ↔
      a ∈ l ∧ titleMatches a qs = true) ∧
    (u ∈ l → titleMatches u qs = true →
      l.countP (fun b => titleMatches b qs) = 1 →
      searchFilter l (some qs) = [u]) := by
  refine ⟨rfl, by simp [searchFilter], ?_, ?_⟩
  · simp [searchFilter, if_neg hq, List.mem_filter]
  · intro hu hpu hcount
    simp only [searchFilter, if_neg hq]
    exact filter_singleton_of_unique _ l u hu hpu hcount

/-- Witness for C4: in a two-article list the query "hello" matches only
the title "Hello World", and search returns exactly that article. -/
theorem search_semantics_witness :
    searchFilter [sampleArticle, sampleDraft] (some "hello")
      = [sampleArticle] :=
  (search_semantics [sampleArticle, sampleDraft] "hello" sampleArticle
      sampleArticle (by decide)).2.2.2 (by decide) (by decide) (by decide)

theorem find_slug_of_mem {a : Article} :
    ∀ {l : List Article}, l.Pairwise (fun x y => x.slug ≠ y.slug) →
      a ∈ l → l.find? (fun b => b.slug = a.slug) = some a := by
  intro l
  induction l with
  | nil => intro _ h; cases h
  | cons x xs ih =>
    intro hp hm
    rcases List.mem_cons.mp hm with rfl | hmem
    · exact List.find?_cons_of_pos _ (by simp)
    · have hx : x.slug ≠ a.slug := (List.pairwise_cons.mp hp).1 a hmem
      rw [List.find?_cons_of_neg _ (by simpa using hx)]
      exact ih (List.pairwise_cons.mp hp).2 hmem

/-- C5: with the slug-uniqueness invariant of spec §3, direct detail
access by the slug of any stored article returns exactly that article —
whatever its status, `DRAFT` included, since no publication gating is
applied — and detail access returns NotFound (`none`) exactly when no
stored article bears the requested slug. -/
theorem detail_semantics (s : Store) (slug : String) (a : Article)
    (huniq : s.articles.Pairwise (fun x y => x.slug ≠ y.slug)) :
    (a ∈ s.articles → articleDetail s a.slug = some a) ∧
    (articleDetail s slug = none ↔ ∀ b ∈ s.articles, b.slug ≠ slug) := by
  constructor
  · intro hm
    exact find_slug_of_mem huniq hm
  · simp [articleDetail, List.find?_eq_none]

/-- Witness for C5: in the sample store the draft article is returned by
detail access on its own slug, status `DRAFT` notwithstanding. -/
theorem detail_semantics_witness :
    articleDetail sampleStore sampleDraft.slug = some sampleDraft ∧
      sampleDraft.status = Status.DRAFT :=
  ⟨(detail_semantics sampleStore "other" sampleDraft (by decide)).1
      (by decide), by decide⟩

/-- C3: the ordering applied to listing and search output sorts any
collection of articles by `articleLe` (descending `date_published`, ties
by descending `date_created`, then by identifier) while keeping exactly
the input articles (a permutation, hence deterministic output); and on
any list with pairwise distinct `date_published` values — in particular
any non-empty such list — the output is strictly descending by
`date_published`. -/
theorem order_sorts_strict_desc (l : List Article) :
    (order l).Pairwise articleLe ∧ (order l).Perm l ∧
      (l.Pairwise (fun a b => a.datePublished ≠ b.datePublished) →
        (order l).Pairwise
          (fun a b => b.datePublished < a.datePublished)) := by
  have hsorted : (order l).Pairwise articleLe :=
    List.sorted_insertionSort articleLe l
  have hperm : (order l).Perm l := List.perm_insertionSort articleLe l
  refine ⟨hsorted, hperm, ?_⟩
  intro hd
  have hne : (order l).Pairwise
      (fun a b => a.datePublished ≠ b.datePublished) :=
    (hperm.pairwise_iff (fun h => (fun he => h he.symm))).mpr hd
  have := hsorted.and hne
  refine this.imp ?_
  intro a b hab
  rcases hab with ⟨hle, hne2⟩
  unfold articleLe at hle
  omega

/-- Witness for C3 at two concrete two-article lists: one with
coinciding `date_published` (tie broken by `date_created` inside the
unconditional sort contract), one with distinct publication dates
(discharging the strict-descent hypothesis). -/
theorem order_sorts_strict_desc_witness :
    ((order [⟨1, "t1", "s1", "b1", 0, 0, "", Status.PUBLISHED, 5, 4⟩,
             ⟨2, "t2", "s2", "b2", 0, 0, "", Status.PUBLISHED, 5, 6⟩]).Pairwise
        articleLe ∧
      (order [⟨1, "t1", "s1", "b1", 0, 0, "", Status.PUBLISHED, 5, 4⟩,
              ⟨2, "t2", "s2", "b2", 0, 0, "", Status.PUBLISHED, 5, 6⟩]).Perm
          [⟨1, "t1", "s1", "b1", 0, 0, "", Status.PUBLISHED, 5, 4⟩,
           ⟨2, "t2", "s2", "b2", 0, 0, "", Status.PUBLISHED, 5, 6⟩]) ∧
    (order [⟨1, "t1", "s1", "b1", 0, 0, "", Status.PUBLISHED, 5, 5⟩,
            ⟨2, "t2", "s2", "b2", 0, 0, "", Status.PUBLISHED, 9, 6⟩]).Pairwise
        (fun a b => b.datePublished < a.datePublished) :=
  ⟨⟨(order_sorts_strict_desc
        [⟨1, "t1", "s1", "b1", 0, 0, "", Status.PUBLISHED, 5, 4⟩,
         ⟨2, "t2", "s2", "b2", 0, 0, "", Status.PUBLISHED, 5, 6⟩]).1,
      (order_sorts_strict_desc
        [⟨1, "t1", "s1", "b1", 0, 0, "", Status.PUBLISHED, 5, 4⟩,
         ⟨2, "t2", "s2", "b2", 0, 0, "", Status.PUBLISHED, 5, 6⟩]).2.1⟩,
    (order_sorts_strict_desc
        [⟨1, "t1", "s1", "b1", 0, 0, "", Status.PUBLISHED, 5, 5⟩,
         ⟨2, "t2", "s2", "b2", 0, 0, "", Status.PUBLISHED, 9, 6⟩]).2.2
      (by decide)⟩

/-- Outcome of the delete operation: redirect (302), forbidden (403)
with its textual body, or NotFound (404). -/
inductive DeleteResp where
  | redirect : String → DeleteResp
  | forbidden : String → DeleteResp
  | notFound : DeleteResp
deriving DecidableEq, Repr

/-- The HTTP-equivalent status code of a delete outcome. -/
def DeleteResp.statusCode : DeleteResp → Nat
  | redirect _ => 302
  | forbidden _ => 403
  | notFound => 404

/-- Modelled from the spec: the delete operation behind the
Authorization Gate (§4.4) — the blog view code is absent from the
snapshot. The forbidden body and the redirect target are the literals
asserted by `ArticleDeleteViewTest` in `test_views.py` (lines 762 and
772): redirect to `"/"`, forbidden body `"<h1>403 Forbidden</h1>"`.
The resolved article is removed only when the authenticated identity is
its author. -/
def deleteArticle (s : Store) (identity : Nat) (slug : String) :
    Store × DeleteResp :=
  match s.articles.find? (fun a => a.slug = slug) with
  | none => (s, DeleteResp.notFound)
  | some a =>
    if identity = a.author then
      ({ s with articles := s.articles.eraseP (fun b => b.slug = slug) },
        DeleteResp.redirect "/")
    else
      (s, DeleteResp.forbidden "<h1>403 Forbidden</h1>")

/-- Counterexample for C2 as stated: at a concrete non-author delete
request the response is 403, but its body is the fixed string
`"<h1>403 Forbidden</h1>"`, not the string `"403 Forbidden"` the claim
names. -/
theorem delete_forbidden_body_counterexample :
    (deleteArticle sampleStore 99 "hello-world").2.statusCode = 403 ∧
    (deleteArticle sampleStore 99 "hello-world").2
        = DeleteResp.forbidden "<h1>403 Forbidden</h1>" ∧
    (deleteArticle sampleStore 99 "hello-world").2
        ≠ DeleteResp.forbidden "403 Forbidden" := by
  refine ⟨rfl, rfl, ?_⟩
  decide

/-- C2 (amended): for a delete request on a resolved article, the owning
author gets a 302 redirect to the home listing and the article count
drops by exactly one, while any other authenticated identity gets a 403
whose fixed textual body is `"<h1>403 Forbidden</h1>"` (the h1-wrapped
text "403 Forbidden") and the store is unchanged. -/
theorem delete_semantics (s : Store) (identity : Nat) (slug : String)
    (a : Article)
    (hfind : s.articles.find? (fun b => b.slug = slug) = some a) :
    (identity = a.author →
      (deleteArticle s identity slug).1.articles.length
          = s.articles.length - 1 ∧
      0 < s.articles.length ∧
      (deleteArticle s identity slug).2 = DeleteResp.redirect "/" ∧
      (deleteArticle s identity slug).2.statusCode = 302) ∧
    (identity ≠ a.author →
      (deleteArticle s identity slug).1 = s ∧
      (deleteArticle s identity slug).2
          = DeleteResp.forbidden "<h1>403 Forbidden</h1>" ∧
      (deleteArticle s identity slug).2.statusCode = 403) := by
  have hmem : a ∈ s.articles := List.mem_of_find?_eq_some hfind
  have hpa := List.find?_some hfind
  constructor
  · intro hid
    have hlen : (s.articles.eraseP
        (fun b => b.slug = slug)).length = s.articles.length - 1 :=
      List.length_eraseP_of_mem hmem hpa
    have hpos : 0 < s.articles.length := List.length_pos.mpr
      (List.ne_nil_of_mem hmem)
    refine ⟨?_, hpos, ?_, ?_⟩ <;>
      simp [deleteArticle, hfind, hid, hlen, DeleteResp.statusCode]
  · intro hid
    refine ⟨?_, ?_, ?_⟩ <;>
      simp [deleteArticle, hfind, hid, DeleteResp.statusCode]

/-- Witness for C2 (amended): in the sample store the author (identity
7) deleting the published article gets the redirect and the count drops
from 2 to 1; a different identity gets the fixed forbidden body. -/
theorem delete_semantics_witness :
    ((deleteArticle sampleStore 7 "hello-world").1.articles.length
        = sampleStore.articles.length - 1 ∧
      0 < sampleStore.articles.length ∧
      (deleteArticle sampleStore 7 "hello-world").2
          = DeleteResp.redirect "/" ∧
      (deleteArticle sampleStore 7 "hello-world").2.statusCode = 302) ∧
    ((deleteArticle sampleStore 99 "hello-world").1 = sampleStore ∧
      (deleteArticle sampleStore 99 "hello-world").2
          = DeleteResp.forbidden "<h1>403 Forbidden</h1>" ∧
      (deleteArticle sampleStore 99 "hello-world").2.statusCode = 403) :=
  ⟨(delete_semantics sampleStore 7 "hello-world" sampleArticle
      (by decide)).1 (by decide),
    (delete_semantics sampleStore 99 "hello-world" sampleArticle
      (by decide)).2 (by decide)⟩

/-- The message a missing required form field carries
(`test_views.py` lines 541-544). -/
def requiredFieldError : String := "This field is required."

/-- Modelled from the spec: the message of the store-level uniqueness
Conflict on slug (§7), surfaced as a validation-style failure. -/
def slugConflictError : String := "Article with this Slug already exists."

/-- The data submitted to the article create form: every article field
except the identifier (the test posts `model_to_dict(article)`). -/
structure ArticleForm where
  title : String
  slug : String
  body : String
  author : Nat
  category : Nat
  image : String
  status : Status
  datePublished : Nat
  dateCreated : Nat
deriving DecidableEq, Repr

/-- Modelled from the spec: per-field validation of the create form
(§4.4) — one `requiredFieldError` per missing required field, title and
body being the required fields the spec names. -/
def createFormErrors (f : ArticleForm) : List (String × String) :=
  (if f.title = "" then [("title", requiredFieldError)] else []) ++
    (if f.body = "" then [("body", requiredFieldError)] else [])

/-- Modelled from the spec: the full error list of a create submission —
the per-field required errors plus the slug uniqueness Conflict (§7). -/
def createErrors (s : Store) (f : ArticleForm) : List (String × String) :=
  createFormErrors f ++
    (if s.articles.any (fun b => b.slug = f.slug) then
      [("slug", slugConflictError)] else [])

/-- Outcome of the create operation: redirect to login (302), re-render
of the form with its errors (200), or persisted (the test observes 200
here as well). -/
inductive CreateResp where
  | redirectLogin : String → CreateResp
  | rerender : List (String × String) → CreateResp
  | created : CreateResp
deriving DecidableEq, Repr

/-- The HTTP-equivalent status code of a create outcome. -/
def CreateResp.statusCode : CreateResp → Nat
  | redirectLogin _ => 302
  | rerender _ => 200
  | created => 200

/-- The create route path asserted by
`ArticleCreateViewTest.test_redirect_if_not_logged_in`. -/
def createRoutePath : String := "/article-new/"

/-- The login route path asserted by the same test. -/
def loginRoutePath : String := "/accounts/login/"

/-- The login redirect target: the login route with a `next` parameter
equal to the create route path
(`"/accounts/login/?next=/article-new/"` in the test). -/
def loginRedirectTarget : String :=
  loginRoutePath ++ "?next=" ++ createRoutePath

/-- A fresh identifier for a newly persisted article. -/
def newArticleId (s : Store) : Nat :=
  (s.articles.map Article.id).foldr max 0 + 1

/-- The article persisted from a create submission. -/
def articleOfForm (i : Nat) (f : ArticleForm) : Article :=
  ⟨i, f.title, f.slug, f.body, f.author, f.category, f.image, f.status,
    f.datePublished, f.dateCreated⟩

/-- Modelled from the spec: the GET form page of the create operation
(§4.4, §6) — unauthenticated access yields the login redirect, an
authenticated identity gets the form (re)render. -/
def createPage (identity : Option Nat) : CreateResp :=
  match identity with
  | none => CreateResp.redirectLogin loginRedirectTarget
  | some _ => CreateResp.rerender []

/-- Modelled from the spec: the POST create operation (§4.4, §7) — the
blog view code is absent from the snapshot. Unauthenticated submission
yields the login redirect and persists nothing; an invalid submission
re-renders with its error list and persists nothing; a valid one appends
the new article to the store. -/
def createArticle (s : Store) (identity : Option Nat) (f : ArticleForm) :
    Store × CreateResp :=
  match identity with
  | none => (s, CreateResp.redirectLogin loginRedirectTarget)
  | some _ =>
    if createErrors s f = [] then
      ({ s with
          articles := s.articles ++ [articleOfForm (newArticleId s) f] },
        CreateResp.created)
    else (s, CreateResp.rerender (createErrors s f))

/-- C7: every unauthenticated request to the create operation — GET form
page or POST submission — is answered with a 302 redirect to the login
route carrying `next` equal to the create route path, and no article is
created (the store is returned unchanged). -/
theorem create_unauthenticated_redirect (s : Store) (f : ArticleForm) :
    createArticle s none f
        = (s, CreateResp.redirectLogin loginRedirectTarget) ∧
    (createArticle s none f).2.statusCode = 302 ∧
    createPage none = CreateResp.redirectLogin loginRedirectTarget ∧
    loginRedirectTarget = loginRoutePath ++ "?next=" ++ createRoutePath ∧
    loginRedirectTarget = "/accounts/login/?next=/article-new/" :=
  ⟨rfl, rfl, rfl, rfl, rfl⟩

/-- C6: an authenticated create submission with empty title and empty
body persists nothing (the store is unchanged), is answered with status
200, and its re-rendered form context carries exactly one
`"This field is required."` error on the title field and exactly one on
the body field. -/
theorem create_invalid_required_errors (s : Store) (identity : Nat)
    (f : ArticleForm) (ht : f.title = "") (hb : f.body = "") :
    (createArticle s (some identity) f).1 = s ∧
    (createArticle s (some identity) f).2.statusCode = 200 ∧
    (createArticle s (some identity) f).2
        = CreateResp.rerender (createErrors s f) ∧
    (createErrors s f).count ("title", requiredFieldError) = 1 ∧
    (createErrors s f).count ("body", requiredFieldError) = 1 := by
  by_cases hs : s.articles.any (fun b => b.slug = f.slug) = true
  · have herr : createErrors s f
        = [("title", requiredFieldError), ("body", requiredFieldError),
            ("slug", slugConflictError)] := by
      simp [createErrors, createFormErrors, ht, hb, hs]
    refine ⟨?_, ?_, ?_, ?_, ?_⟩ <;>
      simp [createArticle, herr, CreateResp.statusCode, List.count_cons]
  · have herr : createErrors s f
        = [("title", requiredFieldError), ("body", requiredFieldError)] := by
      simp [createErrors, createFormErrors, ht, hb, hs]
    refine ⟨?_, ?_, ?_, ?_, ?_⟩ <;>
      simp [createArticle, herr, CreateResp.statusCode, List.count_cons]

/-- Witness for C6 at a concrete all-empty submission against the sample
store. -/
theorem create_invalid_required_errors_witness :
    (createArticle sampleStore (some 7)
        ⟨"", "x", "", 7, 3, "", Status.DRAFT, 0, 0⟩).1 = sampleStore ∧
    (createArticle sampleStore (some 7)
        ⟨"", "x", "", 7, 3, "", Status.DRAFT, 0, 0⟩).2.statusCode = 200 ∧
    (createArticle sampleStore (some 7)
        ⟨"", "x", "", 7, 3, "", Status.DRAFT, 0, 0⟩).2
      = CreateResp.rerender (createErrors sampleStore
          ⟨"", "x", "", 7, 3, "", Status.DRAFT, 0, 0⟩) ∧
    (createErrors sampleStore
        ⟨"", "x", "", 7, 3, "", Status.DRAFT, 0, 0⟩).count
      ("title", requiredFieldError) = 1 ∧
    (createErrors sampleStore
        ⟨"", "x", "", 7, 3, "", Status.DRAFT, 0, 0⟩).count
      ("body", requiredFieldError) = 1 :=
  create_invalid_required_errors sampleStore 7
    ⟨"", "x", "", 7, 3, "", Status.DRAFT, 0, 0⟩ rfl rfl

theorem find_append_of_none {α : Type} {p : α → Bool} {l₁ l₂ : List α}
    (h : ∀ b ∈ l₁, p b = false) :
    (l₁ ++ l₂).find? p = l₂.find? p := by
  induction l₁ with
  | nil => rfl
  | cons x xs ih =>
    have hx : p x = false := h x (List.mem_cons_self x xs)
    rw [List.cons_append, List.find?_cons_of_neg _ (by simp [hx])]
    exact ih (fun b hb => h b (List.mem_cons_of_mem x hb))

/-- C8: an authenticated create submission with valid input — nonempty
title and body, slug not already taken — is persisted (the article count
grows by one) and an immediately following detail lookup by the new slug
returns an article whose title, slug, body, author, category, status and
timestamps equal those submitted: create followed by detail retrieval is
a round-trip. -/
theorem create_valid_roundtrip (s : Store) (identity : Nat)
    (f : ArticleForm) (ht : f.title ≠ "") (hb : f.body ≠ "")
    (hfresh : ∀ b ∈ s.articles, b.slug ≠ f.slug) :
    (createArticle s (some identity) f).2 = CreateResp.created ∧
    (createArticle s (some identity) f).1.articles.length
        = s.articles.length + 1 ∧
    articleDetail (createArticle s (some identity) f).1 f.slug
        = some (articleOfForm (newArticleId s) f) ∧
    (articleOfForm (newArticleId s) f).title = f.title ∧
    (articleOfForm (newArticleId s) f).slug = f.slug ∧
    (articleOfForm (newArticleId s) f).body = f.body ∧
    (articleOfForm (newArticleId s) f).author = f.author ∧
    (articleOfForm (newArticleId s) f).category = f.category ∧
    (articleOfForm (newArticleId s) f).status = f.status ∧
    (articleOfForm (newArticleId s) f).datePublished = f.datePublished ∧
    (articleOfForm (newArticleId s) f).dateCreated = f.dateCreated := by
  have hany : s.articles.any (fun b => b.slug = f.slug) = false := by
    simp only [List.any_eq_false, decide_eq_true_eq]
    exact hfresh
  have herr : createErrors s f = [] := by
    simp [createErrors, createFormErrors, ht, hb, hany]
  have hstore : (createArticle s (some identity) f).1
      = { s with
          articles := s.articles ++ [articleOfForm (newArticleId s) f] } := by
    simp [createArticle, herr]
  refine ⟨by simp [createArticle, herr], ?_, ?_, rfl, rfl, rfl, rfl, rfl,
    rfl, rfl, rfl⟩
  · rw [hstore]
    simp
  · rw [hstore]
    show (s.articles ++ [articleOfForm (newArticleId s) f]).find?
        (fun b => b.slug = f.slug) = _
    rw [find_append_of_none (fun b hb => by simpa using hfresh b hb)]
    exact List.find?_cons_of_pos _ (by simp [articleOfForm])

/-- Witness for C8: a concrete fresh submission against the sample
store is persisted and immediately retrievable through detail access. -/
theorem create_valid_roundtrip_witness :
    (createArticle sampleStore (some 7)
        ⟨"Fresh Post", "fresh-post", "fresh body", 7, 3, "img",
          Status.PUBLISHED, 12, 12⟩).2 = CreateResp.created ∧
    (createArticle sampleStore (some 7)
        ⟨"Fresh Post", "fresh-post", "fresh body", 7, 3, "img",
          Status.PUBLISHED, 12, 12⟩).1.articles.length
      = sampleStore.articles.length + 1 ∧
    articleDetail (createArticle sampleStore (some 7)
        ⟨"Fresh Post", "fresh-post", "fresh body", 7, 3, "img",
          Status.PUBLISHED, 12, 12⟩).1 "fresh-post"
      = some (articleOfForm (newArticleId sampleStore)
          ⟨"Fresh Post", "fresh-post", "fresh body", 7, 3, "img",
            Status.PUBLISHED, 12, 12⟩) :=
  ⟨(create_valid_roundtrip sampleStore 7 _ (by decide) (by decide)
      (by decide)).1,
    (create_valid_roundtrip sampleStore 7 _ (by decide) (by decide)
      (by decide)).2.1,
    (create_valid_roundtrip sampleStore 7 _ (by decide) (by decide)
      (by decide)).2.2.1⟩

/-- The data submitted to the register form: username and the two
password fields of the Django `UserCreationForm` the view relies on. -/
structure RegisterData where
  username : String
  password1 : String
  password2 : String
deriving DecidableEq, Repr

/-- A register form instance as it reaches a template context: whether
it is bound, the data it was bound to, and the per-field validation
errors it carries. -/
structure RegisterForm where
  isBound : Bool
  data : Option RegisterData
  errors : List (String × String)
deriving DecidableEq, Repr

/-- `UserRegisterForm()` — a fresh unbound form with no data and no
errors (`register_view.py` line 17). -/
def freshRegisterForm : RegisterForm := ⟨false, none, []⟩

/-- The class-level `context_object` of `UserRegisterView`
(`register_view.py` lines 16-18): a single fresh unbound form under the
key `register_form`, shared by every request to the view. -/
def contextObject : List (String × RegisterForm) :=
  [("register_form", freshRegisterForm)]

/-- `UserRegisterView.get` (`register_view.py` lines 20-21): renders the
shared class-level context object. -/
def registerGet : List (String × RegisterForm) := contextObject

/-- Modelled from the spec: `UserRegisterForm` validation — the form
module `blog/forms/account/register_forms.py` is absent from the
snapshot. Per the Register row of §6 and the Conflict taxonomy of §7, a
submission is invalid when the username is empty or already taken, a
password field is empty, or the two passwords differ. -/
def registerErrors (users : List User) (d : RegisterData) :
    List (String × String) :=
  (if d.username = "" then [("username", requiredFieldError)] else []) ++
    (if users.any (fun u => u.username = d.username) then
      [("username", "A user with that username already exists.")]
     else []) ++
    (if d.password1 = "" then [("password1", requiredFieldError)]
     else []) ++
    (if d.password2 ≠ d.password1 then
      [("password2", "The two password fields did not match.")]
     else [])

/-- `UserRegisterForm(request.POST)` (`register_view.py` line 25): the
form bound to the submitted data, carrying its validation errors. -/
def boundRegisterForm (users : List User) (d : RegisterData) :
    RegisterForm :=
  ⟨true, some d, registerErrors users d⟩

/-- A fresh identifier for a newly saved user. -/
def newUserId (users : List User) : Nat :=
  (users.map User.id).foldr max 0 + 1

/-- Outcome of a register POST: redirect to the login route with a
success flash, or re-render of the register template with an error flash
and the rendered context. -/
inductive RegisterResp where
  | redirectLogin : String → RegisterResp
  | rerender : String → List (String × RegisterForm) → RegisterResp
deriving DecidableEq, Repr

/-- The error flash message of `register_view.py` line 37. -/
def invalidInfoFlash : String := "Please provide valid information."

/-- The success flash message of `register_view.py` lines 32-33 for a
given username. -/
def registerSuccessFlash (username : String) : String :=
  "Congratulations " ++ username ++
    " !!! Your account was created successfully"

/-- `UserRegisterView.post` (`register_view.py` lines 23-39): bind the
form; when it validates, save the user and redirect to the login route
with the success flash; otherwise flash the generic error message and
render the template with the class-level `context_object` — not with the
bound form that was just validated. -/
def registerPost (users : List User) (d : RegisterData) :
    List User × RegisterResp :=
  if (boundRegisterForm users d).errors = [] then
    (users ++ [⟨newUserId users, d.username, "", "", "", ""⟩],
      RegisterResp.redirectLogin (registerSuccessFlash d.username))
  else
    (users, RegisterResp.rerender invalidInfoFlash contextObject)

/-- C9: a valid register POST saves the user record (the user list grows
by the submitted username) and redirects to the login route; an invalid
one saves nothing and re-renders the register page with the error flash
message. -/
theorem register_post_semantics (users : List User) (d : RegisterData) :
    ((boundRegisterForm users d).errors = [] →
      (registerPost users d).1
          = users ++ [⟨newUserId users, d.username, "", "", "", ""⟩] ∧
      (registerPost users d).2
          = RegisterResp.redirectLogin (registerSuccessFlash d.username)) ∧
    ((boundRegisterForm users d).errors ≠ [] →
      (registerPost users d).1 = users ∧
      (registerPost users d).2
          = RegisterResp.rerender invalidInfoFlash contextObject) := by
  constructor <;> intro h <;> simp [registerPost, h]

/-- Witness for C9: a concrete valid submission is saved and redirected;
a concrete invalid one is not saved and re-rendered with the flash. -/
theorem register_post_semantics_witness :
    ((registerPost [sampleUser] ⟨"bob", "pw1", "pw1"⟩).1
        = [sampleUser] ++ [⟨newUserId [sampleUser], "bob", "", "", "", ""⟩] ∧
      (registerPost [sampleUser] ⟨"bob", "pw1", "pw1"⟩).2
        = RegisterResp.redirectLogin (registerSuccessFlash "bob")) ∧
    ((registerPost [sampleUser] ⟨"", "", ""⟩).1 = [sampleUser] ∧
      (registerPost [sampleUser] ⟨"", "", ""⟩).2
        = RegisterResp.rerender invalidInfoFlash contextObject) :=
  ⟨(register_post_semantics [sampleUser] ⟨"bob", "pw1", "pw1"⟩).1
      (by decide),
    (register_post_semantics [sampleUser] ⟨"", "", ""⟩).2 (by decide)⟩

/-- C10: on an invalid register POST the response is built from the
class-level shared context holding the fresh unbound `UserRegisterForm`
under the key `register_form` — the bound form that was validated, its
submitted values and its per-field errors are all discarded — only the
generic flash `"Please provide valid information."` signals the failure,
and the GET handler renders this same shared context object. -/
theorem register_invalid_discards_bound_form (users : List User)
    (d : RegisterData)
    (hinv : (boundRegisterForm users d).errors ≠ []) :
    (registerPost users d).2
        = RegisterResp.rerender invalidInfoFlash contextObject ∧
    contextObject = [("register_form", freshRegisterForm)] ∧
    freshRegisterForm.isBound = false ∧
    freshRegisterForm.data = none ∧
    freshRegisterForm.errors = [] ∧
    boundRegisterForm users d ≠ freshRegisterForm ∧
    invalidInfoFlash = "Please provide valid information." ∧
    registerGet = contextObject := by
  refine ⟨?_, rfl, rfl, rfl, rfl, ?_, rfl, rfl⟩
  · simp [registerPost, hinv]
  · intro hcontra
    have hbd : (boundRegisterForm users d).isBound = false := by
      rw [hcontra]; rfl
    simp [boundRegisterForm] at hbd

/-- Witness for C10 at a concrete invalid submission. -/
theorem register_invalid_discards_bound_form_witness :
    (registerPost [sampleUser] ⟨"", "", ""⟩).2
        = RegisterResp.rerender invalidInfoFlash contextObject ∧
    contextObject = [("register_form", freshRegisterForm)] ∧
    freshRegisterForm.isBound = false ∧
    freshRegisterForm.data = none ∧
    freshRegisterForm.errors = [] ∧
    boundRegisterForm [sampleUser] ⟨"", "", ""⟩ ≠ freshRegisterForm ∧
    invalidInfoFlash = "Please provide valid information." ∧
    registerGet = contextObject :=
  register_invalid_discards_bound_form [sampleUser] ⟨"", "", ""⟩
    (by decide)

end BonaBlog
